import Mathlib

/-!
Verification development for a repository of three thin Python API clients:
a Baidu AI wrapper (`baidu_ai_client.py`), a Chinese speech-recognition
helper (`chinese_asr.py`), and a DingTalk bot messaging client
(`dingtalk_assistant.py`).  Each relevant routine is shallowly embedded as a
Lean function; external effects (HTTP responses, the filesystem, the ffmpeg
process, the recognition engines, clock readings, environment variables) are
passed in explicitly as parameters, and observable side effects (network
calls, temp-file creation/removal, engine invocations) are returned as
explicit flags or event traces.
-/

namespace BaiduAI

/-- The `BaiduAIService` enum of `baidu_ai_client.py` exactly as declared
(lines 16-22): five members.  The endpoint table in `__init__` (lines
79-85) and the token exchange (line 136) also access `OCR_GENERAL`,
`OCR_ACCURATE` and `TOKEN`, members this declaration lacks; those accesses
raise `AttributeError` and are modelled through `BaiduAIService.attr`. -/
inductive BaiduAIService
  | TTS | OCR | WENXIN | NLP | IMAGE
deriving DecidableEq, Repr

/-- `service.value` for each enum member. -/
def BaiduAIService.value : BaiduAIService → String
  | .TTS => "tts"
  | .OCR => "ocr"
  | .WENXIN => "wenxin"
  | .NLP => "nlp"
  | .IMAGE => "image"

/-- A Python exception the modelled Baidu client can raise: the
`ValueError`s it constructs itself (lines 139, 144, 193, 234, ...), or the
`AttributeError` raised by accessing a member the `BaiduAIService` enum
does not declare. -/
inductive PyError
  | valueError (msg : String)
  | attributeError (name : String)
deriving DecidableEq, Repr

/-- `getattr(BaiduAIService, name)`: only the five declared members
resolve; any other name — in particular `OCR_GENERAL`, `OCR_ACCURATE` and
`TOKEN`, which lines 81-84 and 136 reference — raises `AttributeError`. -/
def BaiduAIService.attr : String → Except PyError BaiduAIService
  | "TTS" => .ok .TTS
  | "OCR" => .ok .OCR
  | "WENXIN" => .ok .WENXIN
  | "NLP" => .ok .NLP
  | "IMAGE" => .ok .IMAGE
  | name => .error (.attributeError name)

/-- A Python `dict` keyed by strings, modelled as a partial map. -/
def Dict (α : Type) : Type := String → Option α

/-- `d[k] = v` assignment on a dict. -/
def Dict.insert (d : Dict α) (k : String) (v : α) : Dict α :=
  fun k' => if k' = k then some v else d k'

/-- The empty dict `{}`. -/
def Dict.empty : Dict α := fun _ => none

/-- The mutable state of a `BaiduAIClient` that `get_access_token` reads and
writes: the `cache_tokens` flag, and the `_tokens` / `_token_expiry`
caches. -/
structure ClientState where
  cache_tokens : Bool
  tokens : Dict String
  token_expiry : Dict Int

/-- The field state the first part of `__init__` assembles (lines 66-76):
flag set, empty caches.  `__init__` then builds the endpoint table, which
raises (see `clientInit`), so this state is what a call would start from
had construction completed. -/
def ClientState.init (cache_tokens : Bool) : ClientState :=
  { cache_tokens := cache_tokens, tokens := Dict.empty, token_expiry := Dict.empty }

/-- `BaiduAIClient.__init__` (lines 55-85): after assembling the fields and
empty caches it builds the endpoint table, whose keys are evaluated in
source order (lines 80-84); `BaiduAIService.OCR_GENERAL` at line 81 is the
first undeclared member, so construction raises `AttributeError` there and
never completes. -/
def clientInit (cache_tokens : Bool) : Except PyError ClientState := do
  let _ ← BaiduAIService.attr "TTS"
  let _ ← BaiduAIService.attr "OCR_GENERAL"
  let _ ← BaiduAIService.attr "OCR_ACCURATE"
  let _ ← BaiduAIService.attr "WENXIN"
  let _ ← BaiduAIService.attr "TOKEN"
  return ClientState.init cache_tokens

/-- JSON body of a token-endpoint response, restricted to the fields
`get_access_token` reads: the optional `error` / `error_description` pair of
a failure envelope, and `access_token` / `expires_in` of a success.  (The
code indexes `access_token` and `expires_in` only when `error` is absent.) -/
structure TokenBody where
  error : Option String
  error_description : Option String
  access_token : String
  expires_in : Int

/-- An HTTP response from the token endpoint, as seen by
`get_access_token`: the status code, the decoded JSON body, and the raw
text used in the non-200 error message. -/
structure TokenResponse where
  status_code : Nat
  body : TokenBody
  text : String

/-- Result of one `get_access_token` call: what it returns or raises, whether
it performed the network token exchange, and the client state it leaves. -/
structure GetTokenResult where
  outcome : Except PyError String
  madeNetworkCall : Bool
  state : ClientState

/-- The cache key `get_access_token` derives from its `service` argument
(line 115): `service.value if service else 'default'`. -/
def cacheKey (service : Option BaiduAIService) : String :=
  match service with
  | some s => s.value
  | none => "default"

/-- The fresh-exchange tail of `get_access_token` (lines 121-154).  Line
136 first evaluates `self.endpoints[BaiduAIService.TOKEN]` as an argument
of `session.post`; `TOKEN` is not a declared enum member, so the access
raises `AttributeError` before the POST, and the rest of the tail — the
non-200 check, the envelope classification (lines 143-144) and the cache
write (lines 150-152) — is dead code.  The dead branches are kept below,
mirroring the source text, behind the member access that precedes them. -/
def tokenExchange (st : ClientState) (cache_key : String)
    (tStore : Int) (resp : TokenResponse) : GetTokenResult :=
  match BaiduAIService.attr "TOKEN" with
  | .error e => { outcome := .error e, madeNetworkCall := false, state := st }
  | .ok _ =>
    if resp.status_code ≠ 200 then
      { outcome := .error (.valueError
          ("获取Token失败: " ++ toString resp.status_code ++ " - " ++ resp.text))
        madeNetworkCall := true, state := st }
    else
      match resp.body.error with
      | some _ =>
        { outcome := .error (.valueError
            ("百度AI错误: " ++ resp.body.error_description.getD "未知错误"))
          madeNetworkCall := true, state := st }
      | none =>
        let access_token := resp.body.access_token
        let st' :=
          if st.cache_tokens then
            { st with
              tokens := st.tokens.insert cache_key access_token
              token_expiry := st.token_expiry.insert cache_key
                (tStore + resp.body.expires_in - 300) }
          else st
        { outcome := .ok access_token, madeNetworkCall := true, state := st' }

/-- `BaiduAIClient.get_access_token` (lines 104-154).  The guard mirrors
line 116-118: caching on, both dicts hold the key, and the current clock
reading is strictly below the recorded expiry.  On a cache miss the call
proceeds into `tokenExchange`, where the undeclared `BaiduAIService.TOKEN`
raises `AttributeError` (line 136) before the POST.  `tCheck` is the
`time.time()` reading at the cache check (line 118) and `tStore` the
reading the (dead) expiry-recording line 152 would use; `resp` is the
token-endpoint response the exchange would receive had it been reached. -/
def get_access_token (st : ClientState) (service : Option BaiduAIService)
    (tCheck tStore : Int) (resp : TokenResponse) : GetTokenResult :=
  let cache_key := cacheKey service
  match st.tokens cache_key, st.token_expiry cache_key with
  | some cached, some expiry =>
    if st.cache_tokens ∧ tCheck < expiry then
      { outcome := .ok cached, madeNetworkCall := false, state := st }
    else
      tokenExchange st cache_key tStore resp
  | some _, none => tokenExchange st cache_key tStore resp
  | none, _ => tokenExchange st cache_key tStore resp

/-- One element of an OCR `words_result` array: a JSON object that may or
may not carry a `words` field (the code reads it with `item.get('words', '')`). -/
structure WordsItem where
  words : Option String
deriving Repr

/-- The JSON body of an OCR response, restricted to the fields
`ocr_general` / `ocr_accurate` read: the optional `error_code` /
`error_msg` pair of a vendor error envelope (the code renders `error_code`
inside an f-string, so it is kept here in rendered form), and the optional
`words_result` array of a success payload. -/
structure OcrPayload where
  error_code : Option String
  error_msg : Option String
  words_result : Option (List WordsItem)
deriving Repr

/-- The response-classification and extraction tail of
`BaiduAIClient.ocr_general` (lines 231-241): raise a `ValueError` rendering
`error_code` and `error_msg` when the body carries an `error_code` field,
otherwise collect `item.get('words', '')` over `data.get('words_result', [])`. -/
def ocrGeneralExtract (data : OcrPayload) : Except String (List String) :=
  match data.error_code with
  | some code => .error ("OCR错误 " ++ code ++ ": " ++ data.error_msg.getD "未知错误")
  | none => .ok ((data.words_result.getD []).map (fun item => item.words.getD ""))

/-- The same tail of `BaiduAIClient.ocr_accurate` (lines 277-287); it differs
from `ocr_general` only in the error-message prefix. -/
def ocrAccurateExtract (data : OcrPayload) : Except String (List String) :=
  match data.error_code with
  | some code => .error ("OCR高精度错误 " ++ code ++ ": " ++ data.error_msg.getD "未知错误")
  | none => .ok ((data.words_result.getD []).map (fun item => item.words.getD ""))

/-- `s` occurs verbatim inside `t` (substring containment on the character
lists); used to state that a surfaced failure "carries" a code or message. -/
def containsStr (t s : String) : Prop := s.data <:+: t.data

instance (t s : String) : Decidable (containsStr t s) :=
  inferInstanceAs (Decidable (s.data <:+: t.data))

end BaiduAI

namespace ChineseASR

/-- The `RecognitionMode` enum of `chinese_asr.py`. -/
inductive RecognitionMode
  | GOOGLE | VOSK | HYBRID
deriving DecidableEq, Repr

/-- A `RecognitionResult` dataclass, restricted to its discrete fields
(`text`, `mode`, `language`, `error`); the float-valued fields
(`confidence`, `processing_time`) are timing/scoring metadata elided from
the model. -/
structure RecognitionResult where
  text : String
  mode : RecognitionMode
  language : String
  error : Option String
deriving DecidableEq, Repr

/-- The fields of `ASRConfig` the modelled routines read. -/
structure ASRConfig where
  mode : RecognitionMode
  language : String
  auto_convert_formats : Bool
  sample_rate : Nat
  channels : Nat
deriving Repr

/-- Outcome of one `subprocess.run(['ffmpeg', ...], check=True)` call:
normal exit, `CalledProcessError` (non-zero exit), or `FileNotFoundError`
(the tool is not installed). -/
inductive FfmpegOutcome
  | success | nonzeroExit | toolMissing
deriving DecidableEq, Repr

/-- Observable side effects of the recognition routines, in order:
temp-file creation by `tempfile.NamedTemporaryFile(delete=False)` (which
creates the file on disk), an ffmpeg run, an engine invocation
(`recognize_with_google` / `recognize_with_vosk`) on a path, and an
`os.remove`. -/
inductive Ev
  | tempCreated (path : String)
  | ffmpegRun (input output : String) (outcome : FfmpegOutcome)
  | googleCall (path : String)
  | voskCall (path : String)
  | removed (path : String)
deriving DecidableEq, Repr

/-- Characters of the final path component (after the last `/`). -/
def lastComponentAux (acc : List Char) : List Char → List Char
  | [] => acc.reverse
  | c :: rest =>
    if c = '/' then lastComponentAux [] rest else lastComponentAux (c :: acc) rest

/-- Index of the last `.` in a character list (`str.rfind('.')`). -/
def rfindDotAux (i : Nat) (best : Option Nat) : List Char → Option Nat
  | [] => best
  | c :: rest => rfindDotAux (i + 1) (if c = '.' then some i else best) rest

/-- `Path(p).suffix` (line 102): the extension of the final path component —
`name[i:]` for `i = name.rfind('.')` when `0 < i < len(name) - 1`, else
empty (pathlib's rule). -/
def pathSuffix (p : String) : String :=
  let name := lastComponentAux [] p.data
  match rfindDotAux 0 none name with
  | some i => if 0 < i ∧ i + 1 < name.length then ⟨name.drop i⟩ else ""
  | none => ""

/-- ASCII lower-casing of a character (extensions are ASCII, so this
matches `str.lower()` on them). -/
def asciiToLower (c : Char) : Char :=
  if 'A' ≤ c ∧ c ≤ 'Z' then Char.ofNat (c.toNat + 32) else c

/-- `.lower()` on a suffix string. -/
def lowerStr (s : String) : String := ⟨s.data.map asciiToLower⟩

/-- `ChineseSpeechRecognizer.convert_audio_format` (lines 90-128).
`tempName` is the fresh path handed out by `NamedTemporaryFile`; `ffmpeg`
is the outcome of the `subprocess.run` call.  Returns the path the method
returns together with the event trace.  On `CalledProcessError` or
`FileNotFoundError` the method prints and returns the original
`input_path` (lines 122-128). -/
def convert_audio_format (cfg : ASRConfig) (input_path : String)
    (tempName : String) (ffmpeg : FfmpegOutcome) : String × List Ev :=
  let input_ext := lowerStr (pathSuffix input_path)
  if (input_ext = ".wav" ∨ input_ext = ".flac") ∧ ¬ cfg.auto_convert_formats then
    (input_path, [])
  else
    let output_path := tempName
    let evs := [Ev.tempCreated output_path, Ev.ffmpegRun input_path output_path ffmpeg]
    match ffmpeg with
    | .success => (output_path, evs)
    | .nonzeroExit => (input_path, evs)
    | .toolMissing => (input_path, evs)

/-- The format-conversion step of `recognize_audio` (lines 309-316): convert
when `auto_convert_formats` is set, otherwise keep the input path with no
events. -/
def convResult (cfg : ASRConfig) (tempName : String) (ffmpeg : FfmpegOutcome)
    (audio_path : String) : String × List Ev :=
  if cfg.auto_convert_formats then
    convert_audio_format cfg audio_path tempName ffmpeg
  else (audio_path, [])

/-- The mode-dispatch block of `recognize_audio` (lines 319-342): pick the
engine by `config.mode`; in hybrid mode try Google first and fall back to
Vosk when the Google result carries an error or empty text, stamping the
returned result's `mode` to `HYBRID` (the code mutates `result.mode`).
The `else` arm for an unknown mode (lines 334-342) is unreachable over the
three-member enum. -/
def dispatchEngines (cfg : ASRConfig) (google vosk : String → RecognitionResult)
    (converted_path : String) : RecognitionResult × List Ev :=
  match cfg.mode with
  | .GOOGLE => (google converted_path, [Ev.googleCall converted_path])
  | .VOSK => (vosk converted_path, [Ev.voskCall converted_path])
  | .HYBRID =>
    let google_result := google converted_path
    if google_result.error.isSome ∨ google_result.text = "" then
      let v := vosk converted_path
      ({ v with mode := .HYBRID },
       [Ev.googleCall converted_path, Ev.voskCall converted_path])
    else
      ({ google_result with mode := .HYBRID }, [Ev.googleCall converted_path])

/-- `ChineseSpeechRecognizer.recognize_audio` (lines 286-369).  The two
engine wrappers `recognize_with_google` / `recognize_with_vosk` catch every
exception internally and return a `RecognitionResult`, so they enter the
model as oracle functions `google` and `vosk` from the audio path to the
result they produce; `fsExists` is `os.path.exists`.  Returns the final
result and the event trace.  The temp-file cleanup (lines 344-346) removes
the converted file exactly when conversion produced a path different from
the input (the `exists` guard passes: the temp file was created by
`NamedTemporaryFile` and nothing removed it); the duplicate cleanup in the
`except` handler (lines 357-369) is unreachable because the engine wrappers
do not raise. -/
def recognize_audio (cfg : ASRConfig) (fsExists : String → Bool)
    (google vosk : String → RecognitionResult)
    (tempName : String) (ffmpeg : FfmpegOutcome)
    (audio_path : String) : RecognitionResult × List Ev :=
  if ¬ fsExists audio_path then
    ({ text := "", mode := cfg.mode, language := cfg.language
       error := some ("文件不存在: " ++ audio_path) }, [])
  else
    let conv := convResult cfg tempName ffmpeg audio_path
    let converted_path := conv.1
    let is_temp := cfg.auto_convert_formats ∧ converted_path ≠ audio_path
    let step := dispatchEngines cfg google vosk converted_path
    let cleanup : List Ev := if is_temp then [Ev.removed converted_path] else []
    (step.1, conv.2 ++ step.2 ++ cleanup)

/-- `ChineseSpeechRecognizer.recognize_dingtalk_voice` (lines 371-423).
`wavTemp` is the fresh `.wav` path from `NamedTemporaryFile`;
`ffmpegDT` the outcome of the OGG→WAV ffmpeg run; `innerTemp` /
`innerFfmpeg` feed the nested `recognize_audio` call's own conversion.
On success the converted file is recognized and then removed (lines
397-406); on `CalledProcessError` the method falls back to
`recognize_audio(ogg_path)` without removing the temp file (lines 408-411);
`FileNotFoundError` lands in the generic `except Exception` handler, which
removes the temp file and returns an error result (lines 412-423). -/
def recognize_dingtalk_voice (cfg : ASRConfig) (fsExists : String → Bool)
    (google vosk : String → RecognitionResult)
    (wavTemp innerTemp : String) (ffmpegDT innerFfmpeg : FfmpegOutcome)
    (ogg_path : String) : RecognitionResult × List Ev :=
  let wav_path := wavTemp
  let evs0 := [Ev.tempCreated wav_path, Ev.ffmpegRun ogg_path wav_path ffmpegDT]
  match ffmpegDT with
  | .success =>
    let inner := recognize_audio cfg fsExists google vosk innerTemp innerFfmpeg wav_path
    (inner.1, evs0 ++ inner.2 ++ [Ev.removed wav_path])
  | .nonzeroExit =>
    let inner := recognize_audio cfg fsExists google vosk innerTemp innerFfmpeg ogg_path
    (inner.1, evs0 ++ inner.2)
  | .toolMissing =>
    ({ text := "", mode := cfg.mode, language := cfg.language
       error := some "钉钉语音处理失败: ffmpeg missing" }, evs0 ++ [Ev.removed wav_path])

/-- The converted path `recognize_audio` dispatches the engines on
(lines 309-316). -/
def convertedPath (cfg : ASRConfig) (tempName : String)
    (ffmpeg : FfmpegOutcome) (audio_path : String) : String :=
  (convResult cfg tempName ffmpeg audio_path).1

/-- Number of offline-engine (`recognize_with_vosk`) invocations in a trace. -/
def voskCalls (tr : List Ev) : Nat :=
  (tr.filter (fun e => match e with | Ev.voskCall _ => true | _ => false)).length

end ChineseASR

namespace DingTalk

/-- A process environment: `os.getenv` as a partial map. -/
def Env : Type := String → Option String

/-- Python's `a or b` on an optional string `a`: `None` and the empty
string are falsy, so both fall through to `b`. -/
def pyOr (a : Option String) (b : Option String) : Option String :=
  match a with
  | none => b
  | some s => if s = "" then b else some s

/-- Python truthiness of an optional string (`if not x` guards). -/
def truthy : Option String → Bool
  | none => false
  | some s => s ≠ ""

/-- The fields of a `DingTalkAssistant` instance set by `__init__`
(lines 16-27) and read by the send methods; `base_url` is a constant and
`session`/`proxy` configure transport only, so they are omitted. -/
structure Assistant where
  access_token : Option String

/-- `DingTalkAssistant.__init__` (lines 16-27): the access token falls back
to `os.getenv('DINGTALK_ACCESS_TOKEN')` read from the construction-time
environment `envAtInit`. -/
def Assistant.init (access_token : Option String) (envAtInit : Env) : Assistant :=
  { access_token := pyOr access_token (envAtInit "DINGTALK_ACCESS_TOKEN") }

/-- The HTTP request a send method hands to `session.post`: the batchSend
URL is common to all of them, the header token is
`self.access_token` (a `None` value is legal in the headers dict), and the
JSON body carries `robotCode` (possibly `None`), `userIds`, `msgKey` and
the serialized `msgParam`. -/
structure SendRequest where
  headerToken : Option String
  robotCode : Option String
  userIds : List String
  msgKey : String
  msgParam : String
deriving DecidableEq, Repr

/-- `DingTalkAssistant.send_text_message` (lines 63-100).  `envAtSend` is
the process environment at the moment of the call: line 79 re-reads
`DINGTALK_ROBOT_CODE` from it whenever `robot_code` is falsy.  Raises
(`.error`) before any HTTP request when the access token or the robot code
is unset; otherwise returns the request it posts. -/
def send_text_message (a : Assistant) (envAtSend : Env)
    (user_id content : String) (robot_code : Option String) :
    Except String SendRequest :=
  if ¬ truthy a.access_token then
    .error "Access Token未设置，请先调用get_access_token或设置环境变量"
  else
    let rc := pyOr robot_code (envAtSend "DINGTALK_ROBOT_CODE")
    if ¬ truthy rc then
      .error "机器人Code未设置"
    else
      .ok { headerToken := a.access_token, robotCode := rc
            userIds := [user_id], msgKey := "sampleText"
            msgParam := "\x7b\"content\": \"" ++ content ++ "\"\x7d" }

/-- `DingTalkAssistant.send_markdown_message` (lines 102-138): no
precondition check at all — the robot code is re-read from the send-time
environment and the request is posted unconditionally. -/
def send_markdown_message (a : Assistant) (envAtSend : Env)
    (user_id title text : String) (robot_code : Option String) :
    Except String SendRequest :=
  let rc := pyOr robot_code (envAtSend "DINGTALK_ROBOT_CODE")
  .ok { headerToken := a.access_token, robotCode := rc
        userIds := [user_id], msgKey := "sampleMarkdown"
        msgParam := "\x7b\"title\": \"" ++ title ++ "\", \"text\": \"" ++ text ++ "\"\x7d" }

/-- `DingTalkAssistant.send_link_message` (lines 140-185): same shape as
the markdown send, `msgKey = "sampleLink"`, `picUrl` included only when
truthy. -/
def send_link_message (a : Assistant) (envAtSend : Env)
    (user_id title text message_url : String) (pic_url : Option String)
    (robot_code : Option String) : Except String SendRequest :=
  let rc := pyOr robot_code (envAtSend "DINGTALK_ROBOT_CODE")
  let base := "\x7b\"title\": \"" ++ title ++ "\", \"text\": \"" ++ text ++
    "\", \"messageUrl\": \"" ++ message_url ++ "\""
  let withPic :=
    match pic_url with
    | some p => if p = "" then base else base ++ ", \"picUrl\": \"" ++ p ++ "\""
    | none => base
  .ok { headerToken := a.access_token, robotCode := rc
        userIds := [user_id], msgKey := "sampleLink"
        msgParam := withPic ++ "\x7d" }

/-- `DingTalkAssistant.batch_send` (lines 208-241): no precondition check;
`msgParam` arrives already serialized here. -/
def batch_send (a : Assistant) (envAtSend : Env)
    (user_ids : List String) (msg_key : String) (msg_param : String)
    (robot_code : Option String) : Except String SendRequest :=
  let rc := pyOr robot_code (envAtSend "DINGTALK_ROBOT_CODE")
  .ok { headerToken := a.access_token, robotCode := rc
        userIds := user_ids, msgKey := msg_key, msgParam := msg_param }

end DingTalk

namespace BaiduAI

theorem Dict.insert_self (d : Dict α) (k : String) (v : α) :
    (d.insert k v) k = some v := by
  simp [Dict.insert]

/-- The fresh-exchange tail always raises `AttributeError("TOKEN")` before
the POST: no network call, no state change, the rest of the tail dead. -/
theorem tokenExchange_attrError (st : ClientState) (k : String)
    (t : Int) (r : TokenResponse) :
    tokenExchange st k t r =
      { outcome := .error (.attributeError "TOKEN"), madeNetworkCall := false
        state := st } := rfl

/-- Case analysis on `get_access_token`: either the cache-hit branch fires
(caching on, both dicts hold the key, clock below expiry) and the call is a
pure cache read, or the call runs the fresh exchange. -/
theorem get_access_token_cases (st : ClientState) (svc : Option BaiduAIService)
    (t t' : Int) (r : TokenResponse) :
    (∃ cached expiry, st.tokens (cacheKey svc) = some cached ∧
       st.token_expiry (cacheKey svc) = some expiry ∧
       st.cache_tokens = true ∧ t < expiry ∧
       get_access_token st svc t t' r =
         { outcome := .ok cached, madeNetworkCall := false, state := st }) ∨
    get_access_token st svc t t' r = tokenExchange st (cacheKey svc) t' r := by
  unfold get_access_token
  cases htok : st.tokens (cacheKey svc) with
  | none => right; simp [htok]
  | some cached =>
    cases hexp : st.token_expiry (cacheKey svc) with
    | none => right; simp [htok, hexp]
    | some expiry =>
      by_cases hcond : st.cache_tokens = true ∧ t < expiry
      · left
        refine ⟨cached, expiry, rfl, rfl, hcond.1, hcond.2, ?_⟩
        simp [htok, hexp, hcond.1, hcond.2]
      · right
        simp [htok, hexp, hcond]

/-- The cache-hit branch of `get_access_token` in isolation. -/
theorem get_access_token_hit (st : ClientState) (svc : Option BaiduAIService)
    (t t' : Int) (r : TokenResponse) (tok : String) (e : Int)
    (hct : st.cache_tokens = true)
    (htok : st.tokens (cacheKey svc) = some tok)
    (hexp : st.token_expiry (cacheKey svc) = some e)
    (hlt : t < e) :
    get_access_token st svc t t' r =
      { outcome := .ok tok, madeNetworkCall := false, state := st } := by
  unfold get_access_token
  simp [htok, hexp, hct, hlt]

/-- When the recorded expiry has passed, the call runs the fresh exchange. -/
theorem get_access_token_expired (st : ClientState) (svc : Option BaiduAIService)
    (t t' : Int) (r : TokenResponse) (e : Int)
    (hexp : st.token_expiry (cacheKey svc) = some e) (hle : e ≤ t) :
    get_access_token st svc t t' r = tokenExchange st (cacheKey svc) t' r := by
  have hnlt : ¬ t < e := not_lt.mpr hle
  unfold get_access_token
  cases htok : st.tokens (cacheKey svc) with
  | none => simp [htok]
  | some cached => simp [htok, hexp, hnlt]

theorem containsStr_of_eq (t s : String) (l r : List Char)
    (h : t.data = l ++ s.data ++ r) : containsStr t s := ⟨l, r, h.symm⟩

/-- C1 (code bug): the claimed cache reuse is unreachable in the source:
`__init__` raises `AttributeError` building the endpoint table (line 81),
and from the empty post-init caches every `get_access_token` call misses
the cache and raises `AttributeError` evaluating `BaiduAIService.TOKEN`
(line 136) before any exchange — no call ever returns or caches a token,
so no first call can establish the validity window the claim's second call
would reuse. -/
theorem C1_cache_reuse_unreachable (b : Bool) (svc : Option BaiduAIService)
    (t t' : Int) (r : TokenResponse) :
    clientInit b = .error (.attributeError "OCR_GENERAL") ∧
    (get_access_token (ClientState.init b) svc t t' r).outcome
      = .error (.attributeError "TOKEN") ∧
    (get_access_token (ClientState.init b) svc t t' r).madeNetworkCall = false ∧
    (get_access_token (ClientState.init b) svc t t' r).state.tokens (cacheKey svc)
      = none := by
  have h : get_access_token (ClientState.init b) svc t t' r
      = { outcome := .error (.attributeError "TOKEN"), madeNetworkCall := false
          state := ClientState.init b } := by
    unfold get_access_token
    exact tokenExchange_attrError (ClientState.init b) (cacheKey svc) t' r
  exact ⟨rfl, by rw [h], by rw [h], by rw [h]; rfl⟩

/-- C2 (code bug): with an expired recorded entry the cache guard does
refuse the entry and the call enters the fresh-exchange tail, but the tail
raises `AttributeError("TOKEN")` (line 136) before the POST: contrary to
the claim, no fresh token exchange is performed — and the expiry recording
at line 152 the claim describes is dead code behind that crash. -/
theorem C2_expired_entry_crashes (st : ClientState) (svc : Option BaiduAIService)
    (t t' : Int) (r : TokenResponse) (e : Int)
    (hexp : st.token_expiry (cacheKey svc) = some e) (hle : e ≤ t) :
    (get_access_token st svc t t' r).outcome = .error (.attributeError "TOKEN") ∧
    (get_access_token st svc t t' r).madeNetworkCall = false ∧
    (get_access_token st svc t t' r).state = st := by
  rw [get_access_token_expired st svc t t' r e hexp hle, tokenExchange_attrError]
  exact ⟨rfl, rfl, rfl⟩

theorem C2_expired_entry_crashes_witness :
    (get_access_token
        (⟨true, Dict.insert Dict.empty "ocr" "T1", Dict.insert Dict.empty "ocr" 3300⟩ :
          ClientState)
        (some .OCR) 4000 4000 ⟨200, ⟨none, none, "T9", 3600⟩, ""⟩).outcome
      = .error (.attributeError "TOKEN") ∧
    (get_access_token
        (⟨true, Dict.insert Dict.empty "ocr" "T1", Dict.insert Dict.empty "ocr" 3300⟩ :
          ClientState)
        (some .OCR) 4000 4000 ⟨200, ⟨none, none, "T9", 3600⟩, ""⟩).madeNetworkCall
      = false ∧
    (get_access_token
        (⟨true, Dict.insert Dict.empty "ocr" "T1", Dict.insert Dict.empty "ocr" 3300⟩ :
          ClientState)
        (some .OCR) 4000 4000 ⟨200, ⟨none, none, "T9", 3600⟩, ""⟩).state
      = (⟨true, Dict.insert Dict.empty "ocr" "T1", Dict.insert Dict.empty "ocr" 3300⟩ :
          ClientState) :=
  C2_expired_entry_crashes
    (⟨true, Dict.insert Dict.empty "ocr" "T1", Dict.insert Dict.empty "ocr" 3300⟩ :
      ClientState)
    (some .OCR) 4000 4000 ⟨200, ⟨none, none, "T9", 3600⟩, ""⟩ 3300 rfl (by decide)

/-- C3 counterexample: for the token-endpoint envelope
`{error: "invalid_client", error_description: "unknown client id"}` the
client surfaces no structured failure carrying the pair: the call raises
the generic `AttributeError` for the undeclared enum member `TOKEN`
(line 136) before the request is even made, so the surfaced exception
carries neither the code nor the message from the envelope. -/
theorem C3_counterexample :
    (get_access_token (ClientState.init true) none 0 0
        ⟨200, ⟨some "invalid_client", some "unknown client id", "", 0⟩, ""⟩).outcome
      = .error (.attributeError "TOKEN") ∧
    (get_access_token (ClientState.init true) none 0 0
        ⟨200, ⟨some "invalid_client", some "unknown client id", "", 0⟩, ""⟩).madeNetworkCall
      = false :=
  ⟨rfl, rfl⟩

/-- C3 (amended): an operation-call error envelope `{error_code, error_msg}`
surfaces a `ValueError` carrying both the code and the message, but the
token-endpoint path never reaches envelope classification: on every cache
miss the call raises the generic `AttributeError("TOKEN")` (undeclared enum
member, line 136) before the request, whatever the endpoint would have
answered. -/
theorem C3_amended_error_mapping (data : OcrPayload) (code msg : String)
    (hcode : data.error_code = some code) (hmsg : data.error_msg = some msg)
    (st : ClientState) (svc : Option BaiduAIService) (t t' : Int)
    (r : TokenResponse)
    (hmiss : st.tokens (cacheKey svc) = none) :
    (∃ e, ocrGeneralExtract data = .error e ∧ containsStr e code ∧ containsStr e msg) ∧
    (∃ e, ocrAccurateExtract data = .error e ∧ containsStr e code ∧ containsStr e msg) ∧
    ((get_access_token st svc t t' r).outcome = .error (.attributeError "TOKEN") ∧
     (get_access_token st svc t t' r).madeNetworkCall = false) := by
  refine ⟨⟨"OCR错误 " ++ code ++ ": " ++ msg, ?_, ?_, ?_⟩,
    ⟨"OCR高精度错误 " ++ code ++ ": " ++ msg, ?_, ?_, ?_⟩, ?_⟩
  · simp [ocrGeneralExtract, hcode, hmsg]
  · exact containsStr_of_eq _ _ "OCR错误 ".data (": ".data ++ msg.data)
      (by simp [String.data_append])
  · exact containsStr_of_eq _ _ ("OCR错误 ".data ++ code.data ++ ": ".data) []
      (by simp [String.data_append])
  · simp [ocrAccurateExtract, hcode, hmsg]
  · exact containsStr_of_eq _ _ "OCR高精度错误 ".data (": ".data ++ msg.data)
      (by simp [String.data_append])
  · exact containsStr_of_eq _ _ ("OCR高精度错误 ".data ++ code.data ++ ": ".data) []
      (by simp [String.data_append])
  · rcases get_access_token_cases st svc t t' r with ⟨c, e0, htok, _, _, _, _⟩ | heq
    · rw [hmiss] at htok; exact absurd htok (by simp)
    · rw [heq, tokenExchange_attrError]
      exact ⟨rfl, rfl⟩

theorem C3_amended_error_mapping_witness :
    (∃ e, ocrGeneralExtract ⟨some "17", some "quota exceeded", none⟩ = .error e ∧
       containsStr e "17" ∧ containsStr e "quota exceeded") ∧
    (∃ e, ocrAccurateExtract ⟨some "17", some "quota exceeded", none⟩ = .error e ∧
       containsStr e "17" ∧ containsStr e "quota exceeded") ∧
    ((get_access_token (ClientState.init true) none 0 0
        ⟨200, ⟨some "invalid_client", some "bad secret", "", 0⟩, ""⟩).outcome
      = .error (.attributeError "TOKEN") ∧
     (get_access_token (ClientState.init true) none 0 0
        ⟨200, ⟨some "invalid_client", some "bad secret", "", 0⟩, ""⟩).madeNetworkCall
      = false) :=
  C3_amended_error_mapping ⟨some "17", some "quota exceeded", none⟩ "17" "quota exceeded"
    rfl rfl (ClientState.init true) none 0 0
    ⟨200, ⟨some "invalid_client", some "bad secret", "", 0⟩, ""⟩ rfl

/-- C8: for every OCR success payload the extractor returns the `words`
field of each `words_result` element, in payload order. -/
theorem C8_ocr_extract_order (data : OcrPayload) (items : List WordsItem)
    (hok : data.error_code = none) (hw : data.words_result = some items) :
    ocrGeneralExtract data = .ok (items.map (fun item => item.words.getD "")) := by
  simp [ocrGeneralExtract, hok, hw]

theorem C8_ocr_extract_order_witness :
    ocrGeneralExtract ⟨none, none, some [⟨some "你好"⟩, ⟨some "世界"⟩]⟩
      = .ok ["你好", "世界"] :=
  C8_ocr_extract_order ⟨none, none, some [⟨some "你好"⟩, ⟨some "世界"⟩]⟩
    [⟨some "你好"⟩, ⟨some "世界"⟩] rfl rfl

/-- C10: on any success payload (no `error_code` field) the extractor is
total: it returns `ok` with exactly one entry per `words_result` element,
an element lacking a `words` field contributes the empty string, and a
payload with neither `words_result` nor `error_code` yields the empty
list; `ocr_accurate` extracts identically. -/
theorem C10_ocr_extract_total (data : OcrPayload) (hok : data.error_code = none) :
    ocrGeneralExtract data
      = .ok ((data.words_result.getD []).map (fun item => item.words.getD "")) ∧
    ((data.words_result.getD []).map (fun item => item.words.getD "")).length
      = (data.words_result.getD []).length ∧
    (data.words_result = none → ocrGeneralExtract data = .ok []) ∧
    ocrAccurateExtract data
      = .ok ((data.words_result.getD []).map (fun item => item.words.getD "")) := by
  refine ⟨?_, List.length_map _ _, ?_, ?_⟩
  · simp [ocrGeneralExtract, hok]
  · intro hw
    simp [ocrGeneralExtract, hok, hw]
  · simp [ocrAccurateExtract, hok]

theorem C10_ocr_extract_total_witness :
    ocrGeneralExtract ⟨none, none, some [⟨none⟩, ⟨some "词"⟩]⟩ = .ok ["", "词"] ∧
    (([⟨none⟩, ⟨some "词"⟩] : List WordsItem).map (fun item => item.words.getD "")).length
      = ([⟨none⟩, ⟨some "词"⟩] : List WordsItem).length ∧
    ((some [⟨none⟩, ⟨some "词"⟩] : Option (List WordsItem)) = none →
       ocrGeneralExtract ⟨none, none, some [⟨none⟩, ⟨some "词"⟩]⟩ = .ok []) ∧
    ocrAccurateExtract ⟨none, none, some [⟨none⟩, ⟨some "词"⟩]⟩ = .ok ["", "词"] :=
  C10_ocr_extract_total ⟨none, none, some [⟨none⟩, ⟨some "词"⟩]⟩ rfl

end BaiduAI

namespace ChineseASR

theorem voskCalls_append (a b : List Ev) :
    voskCalls (a ++ b) = voskCalls a + voskCalls b := by
  simp [voskCalls, List.filter_append]

theorem voskCalls_ite_removed (c : Prop) [Decidable c] (q : String) :
    voskCalls (if c then [Ev.removed q] else []) = 0 := by
  split <;> rfl

/-- With `auto_convert_formats` set, `convert_audio_format` always creates
the temp file and runs ffmpeg, returning the temp path on success and the
original input path on either failure. -/
theorem convert_auto (cfg : ASRConfig) (inp temp : String) (ff : FfmpegOutcome)
    (ha : cfg.auto_convert_formats = true) :
    convert_audio_format cfg inp temp ff =
      ((match ff with | .success => temp | .nonzeroExit => inp | .toolMissing => inp),
       [Ev.tempCreated temp, Ev.ffmpegRun inp temp ff]) := by
  unfold convert_audio_format
  rw [if_neg (by simp [ha])]
  cases ff <;> rfl

theorem convert_result_cases (cfg : ASRConfig) (inp temp : String) (ff : FfmpegOutcome) :
    (convert_audio_format cfg inp temp ff).1 = inp ∨
    ((convert_audio_format cfg inp temp ff).1 = temp ∧ ff = .success) := by
  unfold convert_audio_format
  cases ff <;> dsimp only <;> split <;>
    first | (left; rfl) | (right; exact ⟨rfl, rfl⟩)

theorem removed_not_in_convert (cfg : ASRConfig) (inp temp : String)
    (ff : FfmpegOutcome) (p : String) :
    Ev.removed p ∉ (convert_audio_format cfg inp temp ff).2 := by
  unfold convert_audio_format
  cases ff <;> dsimp only <;> split <;> simp

theorem voskCalls_convResult (cfg : ASRConfig) (temp : String)
    (ff : FfmpegOutcome) (path : String) :
    voskCalls (convResult cfg temp ff path).2 = 0 := by
  unfold convResult
  split
  next ha =>
    rw [convert_auto cfg path temp ff ha]
    rfl
  next => rfl

theorem removed_not_in_convResult (cfg : ASRConfig) (temp : String)
    (ff : FfmpegOutcome) (path p : String) :
    Ev.removed p ∉ (convResult cfg temp ff path).2 := by
  unfold convResult
  split
  · exact removed_not_in_convert cfg path temp ff p
  · simp

theorem removed_not_in_dispatch (cfg : ASRConfig)
    (g v : String → RecognitionResult) (cp p : String) :
    Ev.removed p ∉ (dispatchEngines cfg g v cp).2 := by
  unfold dispatchEngines
  split
  · simp
  · simp
  · dsimp only
    split <;> simp

theorem convResult_fst_cases (cfg : ASRConfig) (temp : String)
    (ff : FfmpegOutcome) (path : String) :
    (convResult cfg temp ff path).1 = path ∨
    ((convResult cfg temp ff path).1 = temp ∧ ff = .success ∧
      cfg.auto_convert_formats = true) := by
  unfold convResult
  split
  next ha =>
    rcases convert_result_cases cfg path temp ff with h | ⟨h1, h2⟩
    · left; exact h
    · right; exact ⟨h1, h2, ha⟩
  · left; rfl

/-- Unfolding of `recognize_audio` on an existing input file. -/
theorem recognize_audio_run (cfg : ASRConfig) (fsE : String → Bool)
    (g v : String → RecognitionResult) (temp : String) (ff : FfmpegOutcome)
    (path : String) (hex : fsE path = true) :
    recognize_audio cfg fsE g v temp ff path =
      ((dispatchEngines cfg g v (convertedPath cfg temp ff path)).1,
       (convResult cfg temp ff path).2
         ++ (dispatchEngines cfg g v (convertedPath cfg temp ff path)).2
         ++ (if cfg.auto_convert_formats ∧ convertedPath cfg temp ff path ≠ path
             then [Ev.removed (convertedPath cfg temp ff path)] else [])) := by
  unfold recognize_audio convertedPath
  rw [if_neg (by simp [hex])]

/-- Any `os.remove` in a `recognize_audio` trace targets the conversion
temp file. -/
theorem removed_mem_recognize_audio (cfg : ASRConfig) (fsE : String → Bool)
    (g v : String → RecognitionResult) (temp : String) (ff : FfmpegOutcome)
    (path p : String)
    (h : Ev.removed p ∈ (recognize_audio cfg fsE g v temp ff path).2) :
    p = temp := by
  by_cases hex : fsE path = true
  · rw [recognize_audio_run cfg fsE g v temp ff path hex] at h
    dsimp only at h
    rw [List.mem_append, List.mem_append] at h
    rcases h with (h | h) | h
    · exact absurd h (removed_not_in_convResult cfg temp ff path p)
    · exact absurd h (removed_not_in_dispatch cfg g v _ p)
    · rcases convResult_fst_cases cfg temp ff path with hc | ⟨hc, _, _⟩
      · rw [if_neg (by simp [convertedPath, hc])] at h
        simp at h
      · by_cases hcl : cfg.auto_convert_formats ∧ convertedPath cfg temp ff path ≠ path
        · rw [if_pos hcl] at h
          simp at h
          rw [h, convertedPath, hc]
        · rw [if_neg hcl] at h
          simp at h
  · unfold recognize_audio at h
    rw [if_pos (by simp [hex])] at h
    simp at h

/-- C4: in hybrid mode, when the cloud (Google) result carries an error or
empty text, the offline (Vosk) engine is invoked exactly once on the same
converted audio path and its result (even empty-text-with-error) is
returned with the mode stamped `HYBRID`; when the cloud result succeeds
with non-empty text, the offline engine is not invoked at all. -/
theorem C4_hybrid_fallback (cfg : ASRConfig) (fsE : String → Bool)
    (g v : String → RecognitionResult) (temp : String) (ff : FfmpegOutcome)
    (path : String) (hm : cfg.mode = .HYBRID) (hex : fsE path = true) :
    (((g (convertedPath cfg temp ff path)).error.isSome = true ∨
        (g (convertedPath cfg temp ff path)).text = "") →
       voskCalls (recognize_audio cfg fsE g v temp ff path).2 = 1 ∧
       Ev.voskCall (convertedPath cfg temp ff path)
         ∈ (recognize_audio cfg fsE g v temp ff path).2 ∧
       (recognize_audio cfg fsE g v temp ff path).1
         = { v (convertedPath cfg temp ff path) with mode := .HYBRID }) ∧
    (((g (convertedPath cfg temp ff path)).error = none ∧
        (g (convertedPath cfg temp ff path)).text ≠ "") →
       voskCalls (recognize_audio cfg fsE g v temp ff path).2 = 0 ∧
       (recognize_audio cfg fsE g v temp ff path).1
         = { g (convertedPath cfg temp ff path) with mode := .HYBRID }) := by
  rw [recognize_audio_run cfg fsE g v temp ff path hex]
  constructor
  · intro hfail
    have hstep : dispatchEngines cfg g v (convertedPath cfg temp ff path) =
        ({ v (convertedPath cfg temp ff path) with mode := .HYBRID },
         [Ev.googleCall (convertedPath cfg temp ff path),
          Ev.voskCall (convertedPath cfg temp ff path)]) := by
      unfold dispatchEngines
      rw [hm]
      dsimp only
      rw [if_pos hfail]
    rw [hstep]
    refine ⟨?_, ?_, rfl⟩
    · dsimp only
      rw [voskCalls_append, voskCalls_append, voskCalls_convResult,
        voskCalls_ite_removed]
      rfl
    · simp
  · intro hsucc
    have hstep : dispatchEngines cfg g v (convertedPath cfg temp ff path) =
        ({ g (convertedPath cfg temp ff path) with mode := .HYBRID },
         [Ev.googleCall (convertedPath cfg temp ff path)]) := by
      unfold dispatchEngines
      rw [hm]
      dsimp only
      rw [if_neg (by simp [hsucc.1, hsucc.2])]
    rw [hstep]
    refine ⟨?_, rfl⟩
    dsimp only
    rw [voskCalls_append, voskCalls_append, voskCalls_convResult,
      voskCalls_ite_removed]
    rfl

theorem C4_hybrid_fallback_witness :
    (voskCalls (recognize_audio ⟨.HYBRID, "zh-CN", true, 16000, 1⟩ (fun _ => true)
        (fun _ => ⟨"", .GOOGLE, "zh-CN", some "Google API请求失败: boom"⟩)
        (fun _ => ⟨"", .VOSK, "zh-CN", some "Vosk模型未加载"⟩)
        "/tmp/conv.wav" .success "voice.ogg").2 = 1 ∧
      Ev.voskCall (convertedPath ⟨.HYBRID, "zh-CN", true, 16000, 1⟩ "/tmp/conv.wav"
          .success "voice.ogg")
        ∈ (recognize_audio ⟨.HYBRID, "zh-CN", true, 16000, 1⟩ (fun _ => true)
            (fun _ => ⟨"", .GOOGLE, "zh-CN", some "Google API请求失败: boom"⟩)
            (fun _ => ⟨"", .VOSK, "zh-CN", some "Vosk模型未加载"⟩)
            "/tmp/conv.wav" .success "voice.ogg").2 ∧
      (recognize_audio ⟨.HYBRID, "zh-CN", true, 16000, 1⟩ (fun _ => true)
          (fun _ => ⟨"", .GOOGLE, "zh-CN", some "Google API请求失败: boom"⟩)
          (fun _ => ⟨"", .VOSK, "zh-CN", some "Vosk模型未加载"⟩)
          "/tmp/conv.wav" .success "voice.ogg").1
        = ⟨"", .HYBRID, "zh-CN", some "Vosk模型未加载"⟩) :=
  (C4_hybrid_fallback ⟨.HYBRID, "zh-CN", true, 16000, 1⟩ (fun _ => true)
      (fun _ => ⟨"", .GOOGLE, "zh-CN", some "Google API请求失败: boom"⟩)
      (fun _ => ⟨"", .VOSK, "zh-CN", some "Vosk模型未加载"⟩)
      "/tmp/conv.wav" .success "voice.ogg" rfl rfl).1 (by decide)

/-- C6 counterexample: when ffmpeg exits non-zero (and likewise when the
tool is missing), `convert_audio_format` does not raise — it returns the
original unconverted input path, the exact fallback the claim rules out. -/
theorem C6_counterexample :
    (convert_audio_format ⟨.HYBRID, "zh-CN", true, 16000, 1⟩ "voice.ogg"
        "/tmp/conv1.wav" .nonzeroExit).1 = "voice.ogg" ∧
    Ev.ffmpegRun "voice.ogg" "/tmp/conv1.wav" .nonzeroExit
      ∈ (convert_audio_format ⟨.HYBRID, "zh-CN", true, 16000, 1⟩ "voice.ogg"
          "/tmp/conv1.wav" .nonzeroExit).2 ∧
    (convert_audio_format ⟨.HYBRID, "zh-CN", true, 16000, 1⟩ "voice.ogg"
        "/tmp/conv2.wav" .toolMissing).1 = "voice.ogg" := by
  refine ⟨rfl, ?_, rfl⟩
  decide

/-- C6 (amended): a failing ffmpeg invocation is absorbed, not raised:
`convert_audio_format` returns the original unconverted input path on
non-zero exit or on a missing tool, and `recognize_dingtalk_voice` reacts
to a non-zero exit of its OGG→WAV conversion by recognizing the original
OGG file directly. -/
theorem C6_amended_failure_absorbed (cfg : ASRConfig) (input temp : String)
    (ff : FfmpegOutcome) (fsE : String → Bool)
    (g v : String → RecognitionResult) (wavT innT : String)
    (innF : FfmpegOutcome) (ogg : String) (hff : ff ≠ .success) :
    (convert_audio_format cfg input temp ff).1 = input ∧
    (recognize_dingtalk_voice cfg fsE g v wavT innT .nonzeroExit innF ogg).1
      = (recognize_audio cfg fsE g v innT innF ogg).1 := by
  constructor
  · rcases convert_result_cases cfg input temp ff with h | ⟨h1, h2⟩
    · exact h
    · exact absurd h2 hff
  · rfl

theorem C6_amended_failure_absorbed_witness :
    (convert_audio_format ⟨.GOOGLE, "zh-CN", true, 16000, 1⟩ "a.ogg" "/tmp/c.wav"
        .nonzeroExit).1 = "a.ogg" ∧
    (recognize_dingtalk_voice ⟨.GOOGLE, "zh-CN", true, 16000, 1⟩ (fun _ => true)
        (fun _ => ⟨"你好", .GOOGLE, "zh-CN", none⟩)
        (fun _ => ⟨"", .VOSK, "zh-CN", none⟩)
        "/tmp/w.wav" "/tmp/i.wav" .nonzeroExit .success "a.ogg").1
      = (recognize_audio ⟨.GOOGLE, "zh-CN", true, 16000, 1⟩ (fun _ => true)
          (fun _ => ⟨"你好", .GOOGLE, "zh-CN", none⟩)
          (fun _ => ⟨"", .VOSK, "zh-CN", none⟩)
          "/tmp/i.wav" .success "a.ogg").1 :=
  C6_amended_failure_absorbed ⟨.GOOGLE, "zh-CN", true, 16000, 1⟩ "a.ogg" "/tmp/c.wav"
    .nonzeroExit (fun _ => true) (fun _ => ⟨"你好", .GOOGLE, "zh-CN", none⟩)
    (fun _ => ⟨"", .VOSK, "zh-CN", none⟩) "/tmp/w.wav" "/tmp/i.wav" .success "a.ogg"
    (by decide)

/-- C7 counterexample: in a run whose format conversion fails (ffmpeg exits
non-zero) the temp file pre-created for the conversion output is never
removed — the trace holds its creation and no removal of it. -/
theorem C7_counterexample :
    Ev.tempCreated "/tmp/conv.wav"
      ∈ (recognize_audio ⟨.GOOGLE, "zh-CN", true, 16000, 1⟩ (fun _ => true)
          (fun _ => ⟨"你好", .GOOGLE, "zh-CN", none⟩)
          (fun _ => ⟨"", .VOSK, "zh-CN", none⟩)
          "/tmp/conv.wav" .nonzeroExit "voice.ogg").2 ∧
    Ev.removed "/tmp/conv.wav"
      ∉ (recognize_audio ⟨.GOOGLE, "zh-CN", true, 16000, 1⟩ (fun _ => true)
          (fun _ => ⟨"你好", .GOOGLE, "zh-CN", none⟩)
          (fun _ => ⟨"", .VOSK, "zh-CN", none⟩)
          "/tmp/conv.wav" .nonzeroExit "voice.ogg").2 := by
  decide

/-- C7 (amended): conversion temp files are cleaned up only when ffmpeg
succeeded: after a successful conversion the temp file is removed whatever
the recognition outcome, but when ffmpeg fails the temp file pre-created by
`NamedTemporaryFile` is leaked, and `recognize_dingtalk_voice` likewise
leaks its temp WAV when it falls back after a non-zero exit. -/
theorem C7_amended_cleanup (cfg : ASRConfig) (fsE : String → Bool)
    (g v : String → RecognitionResult) (temp : String) (ff : FfmpegOutcome)
    (path wavT innT : String) (innF : FfmpegOutcome) (ogg : String)
    (ha : cfg.auto_convert_formats = true) (hex : fsE path = true) :
    (ff = .success → temp ≠ path →
       Ev.removed temp ∈ (recognize_audio cfg fsE g v temp ff path).2) ∧
    (ff ≠ .success →
       Ev.tempCreated temp ∈ (recognize_audio cfg fsE g v temp ff path).2 ∧
       Ev.removed temp ∉ (recognize_audio cfg fsE g v temp ff path).2) ∧
    (wavT ≠ innT →
       Ev.tempCreated wavT
         ∈ (recognize_dingtalk_voice cfg fsE g v wavT innT .nonzeroExit innF ogg).2 ∧
       Ev.removed wavT
         ∉ (recognize_dingtalk_voice cfg fsE g v wavT innT .nonzeroExit innF ogg).2) := by
  refine ⟨?_, ?_, ?_⟩
  · intro hffs hne
    subst hffs
    rw [recognize_audio_run cfg fsE g v temp .success path hex]
    have hcp : convertedPath cfg temp .success path = temp := by
      unfold convertedPath convResult
      rw [if_pos (by simp [ha]), convert_auto cfg path temp .success ha]
    rw [hcp]
    rw [if_pos (show cfg.auto_convert_formats ∧ temp ≠ path from ⟨by simp [ha], hne⟩)]
    simp
  · intro hff
    rw [recognize_audio_run cfg fsE g v temp ff path hex]
    have hcp : convertedPath cfg temp ff path = path := by
      unfold convertedPath convResult
      rw [if_pos (by simp [ha]), convert_auto cfg path temp ff ha]
      cases ff
      · exact absurd rfl hff
      · rfl
      · rfl
    have hconv : (convResult cfg temp ff path).2
        = [Ev.tempCreated temp, Ev.ffmpegRun path temp ff] := by
      unfold convResult
      rw [if_pos (by simp [ha]), convert_auto cfg path temp ff ha]
    constructor
    · simp [hconv]
    · intro hmem
      dsimp only at hmem
      rw [List.mem_append, List.mem_append] at hmem
      rcases hmem with (h | h) | h
      · exact removed_not_in_convResult cfg temp ff path temp h
      · exact removed_not_in_dispatch cfg g v _ temp h
      · rw [hcp, if_neg (by simp)] at h
        simp at h
  · intro hne
    constructor
    · simp [recognize_dingtalk_voice]
    · intro hmem
      simp only [recognize_dingtalk_voice, List.mem_append, List.mem_cons,
        List.mem_singleton, List.not_mem_nil, or_false] at hmem
      rcases hmem with (h | h) | h
      · exact Ev.noConfusion h
      · exact Ev.noConfusion h
      · exact hne (removed_mem_recognize_audio cfg fsE g v innT innF ogg wavT h)

theorem C7_amended_cleanup_witness :
    Ev.removed "/tmp/t.wav"
      ∈ (recognize_audio ⟨.GOOGLE, "zh-CN", true, 16000, 1⟩ (fun _ => true)
          (fun _ => ⟨"你好", .GOOGLE, "zh-CN", none⟩)
          (fun _ => ⟨"", .VOSK, "zh-CN", none⟩)
          "/tmp/t.wav" .success "a.ogg").2 ∧
    (Ev.tempCreated "/tmp/t2.wav"
        ∈ (recognize_audio ⟨.GOOGLE, "zh-CN", true, 16000, 1⟩ (fun _ => true)
            (fun _ => ⟨"你好", .GOOGLE, "zh-CN", none⟩)
            (fun _ => ⟨"", .VOSK, "zh-CN", none⟩)
            "/tmp/t2.wav" .nonzeroExit "a.ogg").2 ∧
      Ev.removed "/tmp/t2.wav"
        ∉ (recognize_audio ⟨.GOOGLE, "zh-CN", true, 16000, 1⟩ (fun _ => true)
            (fun _ => ⟨"你好", .GOOGLE, "zh-CN", none⟩)
            (fun _ => ⟨"", .VOSK, "zh-CN", none⟩)
            "/tmp/t2.wav" .nonzeroExit "a.ogg").2) ∧
    (Ev.tempCreated "/tmp/w.wav"
        ∈ (recognize_dingtalk_voice ⟨.GOOGLE, "zh-CN", true, 16000, 1⟩ (fun _ => true)
            (fun _ => ⟨"你好", .GOOGLE, "zh-CN", none⟩)
            (fun _ => ⟨"", .VOSK, "zh-CN", none⟩)
            "/tmp/w.wav" "/tmp/i.wav" .nonzeroExit .success "a.ogg").2 ∧
      Ev.removed "/tmp/w.wav"
        ∉ (recognize_dingtalk_voice ⟨.GOOGLE, "zh-CN", true, 16000, 1⟩ (fun _ => true)
            (fun _ => ⟨"你好", .GOOGLE, "zh-CN", none⟩)
            (fun _ => ⟨"", .VOSK, "zh-CN", none⟩)
            "/tmp/w.wav" "/tmp/i.wav" .nonzeroExit .success "a.ogg").2) :=
  ⟨(C7_amended_cleanup ⟨.GOOGLE, "zh-CN", true, 16000, 1⟩ (fun _ => true)
      (fun _ => ⟨"你好", .GOOGLE, "zh-CN", none⟩)
      (fun _ => ⟨"", .VOSK, "zh-CN", none⟩)
      "/tmp/t.wav" .success "a.ogg" "/tmp/w.wav" "/tmp/i.wav" .success "a.ogg"
      rfl rfl).1 rfl (by decide),
   (C7_amended_cleanup ⟨.GOOGLE, "zh-CN", true, 16000, 1⟩ (fun _ => true)
      (fun _ => ⟨"你好", .GOOGLE, "zh-CN", none⟩)
      (fun _ => ⟨"", .VOSK, "zh-CN", none⟩)
      "/tmp/t2.wav" .nonzeroExit "a.ogg" "/tmp/w.wav" "/tmp/i.wav" .success "a.ogg"
      rfl rfl).2.1 (by decide),
   (C7_amended_cleanup ⟨.GOOGLE, "zh-CN", true, 16000, 1⟩ (fun _ => true)
      (fun _ => ⟨"你好", .GOOGLE, "zh-CN", none⟩)
      (fun _ => ⟨"", .VOSK, "zh-CN", none⟩)
      "/tmp/t.wav" .success "a.ogg" "/tmp/w.wav" "/tmp/i.wav" .success "a.ogg"
      rfl rfl).2.2 (by decide)⟩

end ChineseASR

namespace DingTalk

/-- C5 counterexample: with the robot-code argument left `None`, the robot
code placed in the request is read from the environment at send time:
constructing the client under an environment mapping `DINGTALK_ROBOT_CODE`
to `"R1"` and then sending under one mapping it to `"R2"` puts `"R2"` —
not the construction-time `"R1"` — into the request, so changing the
variable after construction does change the request that is sent. -/
theorem C5_counterexample :
    send_text_message
        (Assistant.init none (fun k => if k = "DINGTALK_ACCESS_TOKEN" then some "tok"
          else if k = "DINGTALK_ROBOT_CODE" then some "R1" else none))
        (fun k => if k = "DINGTALK_ACCESS_TOKEN" then some "tok"
          else if k = "DINGTALK_ROBOT_CODE" then some "R2" else none)
        "user1" "hello" none
      = .ok ⟨some "tok", some "R2", ["user1"], "sampleText", "\x7b\"content\": \"hello\"\x7d"⟩ ∧
    send_text_message
        (Assistant.init none (fun k => if k = "DINGTALK_ACCESS_TOKEN" then some "tok"
          else if k = "DINGTALK_ROBOT_CODE" then some "R1" else none))
        (fun k => if k = "DINGTALK_ACCESS_TOKEN" then some "tok"
          else if k = "DINGTALK_ROBOT_CODE" then some "R1" else none)
        "user1" "hello" none
      = .ok ⟨some "tok", some "R1", ["user1"], "sampleText", "\x7b\"content\": \"hello\"\x7d"⟩ := by
  constructor <;> rfl

/-- C5 (amended): the access token default is fixed at construction, but
the robot-code default is re-read from the process environment on every
send: with an explicit non-empty `robot_code` the request is independent of
the send-time environment, while with `robot_code = None` the request's
robotCode is whatever the send-time environment holds; the header token
always comes from the construction-time state. -/
theorem C5_amended_env_reread (tok : Option String) (envInit envS envS' : Env)
    (uid content : String) (rc : String) (hrc : rc ≠ "") :
    (send_text_message (Assistant.init tok envInit) envS uid content (some rc)
       = send_text_message (Assistant.init tok envInit) envS' uid content (some rc)) ∧
    (∀ req, send_text_message (Assistant.init tok envInit) envS uid content none
        = .ok req →
       req.robotCode = envS "DINGTALK_ROBOT_CODE" ∧
       req.headerToken = (Assistant.init tok envInit).access_token) := by
  constructor
  · unfold send_text_message
    simp [pyOr, hrc]
  · intro req h
    unfold send_text_message at h
    split at h
    · exact absurd h (by simp)
    · dsimp only at h
      split at h
      · exact absurd h (by simp)
      · injection h with h'
        subst h'
        exact ⟨rfl, rfl⟩

theorem C5_amended_env_reread_witness :
    (send_text_message (Assistant.init (some "tok") (fun _ => none))
        (fun _ => some "E1") "u" "hi" (some "RC")
       = send_text_message (Assistant.init (some "tok") (fun _ => none))
        (fun _ => some "E2") "u" "hi" (some "RC")) ∧
    (∀ req, send_text_message (Assistant.init (some "tok") (fun _ => none))
        (fun _ => some "E1") "u" "hi" none = .ok req →
       req.robotCode = (fun (_ : String) => some "E1") "DINGTALK_ROBOT_CODE" ∧
       req.headerToken
         = (Assistant.init (some "tok") (fun _ => none)).access_token) :=
  C5_amended_env_reread (some "tok") (fun _ => none) (fun _ => some "E1")
    (fun _ => some "E2") "u" "hi" "RC" (by decide)

/-- C9: only `send_text_message` checks that an access token is present:
with the token unset it raises before any HTTP request, while
`send_markdown_message`, `send_link_message` and `batch_send` perform no
such check and still produce the request they post (carrying the unset
token in the header slot). -/
theorem C9_token_check_asymmetry (a : Assistant) (env : Env)
    (ha : truthy a.access_token = false)
    (uid content title text murl : String) (pic rc : Option String)
    (uids : List String) (mkey mparam : String) :
    send_text_message a env uid content rc
      = .error "Access Token未设置，请先调用get_access_token或设置环境变量" ∧
    (∃ req, send_markdown_message a env uid title text rc = .ok req ∧
       req.headerToken = a.access_token) ∧
    (∃ req, send_link_message a env uid title text murl pic rc = .ok req ∧
       req.headerToken = a.access_token) ∧
    (∃ req, batch_send a env uids mkey mparam rc = .ok req ∧
       req.headerToken = a.access_token) := by
  refine ⟨?_, ⟨_, rfl, rfl⟩, ⟨_, rfl, rfl⟩, ⟨_, rfl, rfl⟩⟩
  unfold send_text_message
  rw [if_pos (by simp [ha])]

theorem C9_token_check_asymmetry_witness :
    send_text_message ⟨none⟩ (fun _ => some "R") "u" "hello" none
      = .error "Access Token未设置，请先调用get_access_token或设置环境变量" ∧
    (∃ req, send_markdown_message ⟨none⟩ (fun _ => some "R") "u" "标题" "正文" none
        = .ok req ∧ req.headerToken = (⟨none⟩ : Assistant).access_token) ∧
    (∃ req, send_link_message ⟨none⟩ (fun _ => some "R") "u" "标题" "正文"
        "http://example.com" none none = .ok req ∧
       req.headerToken = (⟨none⟩ : Assistant).access_token) ∧
    (∃ req, batch_send ⟨none⟩ (fun _ => some "R") ["u1", "u2"] "sampleText" "\x7b\x7d" none
        = .ok req ∧ req.headerToken = (⟨none⟩ : Assistant).access_token) :=
  C9_token_check_asymmetry ⟨none⟩ (fun _ => some "R") rfl "u" "hello" "标题" "正文"
    "http://example.com" none none ["u1", "u2"] "sampleText" "\x7b\x7d"

end DingTalk
